import Mathlib

/-!
Shallow embedding of the automated book-writer script (the `src/index.js`
variant and the `writeBookLogic` variant in `src/unnamed/part_000`).

JS strings are modelled as `List Char`, JS values as the `Js` inductive,
the remote generation service as oracle functions supplying the text of
each response, and the unbounded paragraph-writing loop as a fuel-indexed
recursion that records every remote call it would issue together with the
value of `bookComplete` at the moment the call is made.
-/

/- ### JS string primitives -/

/-- Whitespace recognised by the model of `String.prototype.trim`
(restricted to the ASCII whitespace that can occur here). -/
def isJsSpace (c : Char) : Bool :=
  c == ' ' || c == '\t' || c == '\n' || c == '\r' || c == '\x0b' || c == '\x0c'

/-- Model of `String.prototype.trim`: drop whitespace from both ends. -/
def trimChars (s : List Char) : List Char :=
  ((s.dropWhile isJsSpace).reverse.dropWhile isJsSpace).reverse

/-- Model of `String.prototype.includes`: substring containment. -/
def containsSub (pat : List Char) : List Char → Bool
  | [] => pat.isEmpty
  | c :: rest => pat.isPrefixOf (c :: rest) || containsSub pat rest

/-- Model of `String.prototype.replace(pat, "")` with a string (not regex)
pattern: removes only the first occurrence of `pat`, if any. -/
def replaceFirst (pat : List Char) : List Char → List Char
  | [] => []
  | c :: rest =>
    if pat.isPrefixOf (c :: rest) then (c :: rest).drop pat.length
    else c :: replaceFirst pat rest

/- ### JS values and the response-text extractor (src/index.js lines 15-23) -/

/-- A JSON-ish JS value, including `undefined`, as far as the script
inspects responses. -/
inductive Js where
  | undef
  | null
  | boolVal (b : Bool)
  | numVal (n : Int)
  | str (s : String)
  | arr (elems : List Js)
  | obj (fields : List (String × Js))

/-- Optional-chaining property access `v?.key`: `undefined`/`null` and
non-objects yield `undefined`, objects look the key up. -/
def getPropOpt (v : Js) (key : String) : Js :=
  match v with
  | Js.obj fields =>
    match fields.find? (fun f => f.1 == key) with
    | some f => f.2
    | none => Js.undef
  | _ => Js.undef

/-- Optional-chaining index access `v?.[i]`. -/
def getIndexOpt (v : Js) (i : Nat) : Js :=
  match v with
  | Js.arr elems => (elems.get? i).getD Js.undef
  | _ => Js.undef

/-- JS truthiness of a value. -/
def jsTruthy : Js → Bool
  | Js.undef => false
  | Js.null => false
  | Js.boolVal b => b
  | Js.numVal n => !(n == 0)
  | Js.str s => !(s == "")
  | Js.arr _ => true
  | Js.obj _ => true

/-- `extractTextFromResponse` from `src/index.js`:
`response.candidates?.[0]?.content?.parts?.[0]?.text || ""`.
The optional chaining makes every step total, and `|| ""` turns any falsy
result (in particular `undefined` from a shape mismatch) into `""`. -/
def extractTextFromResponse (response : Js) : Js :=
  let t := getPropOpt
    (getIndexOpt
      (getPropOpt
        (getPropOpt
          (getIndexOpt (getPropOpt response "candidates") 0)
          "content")
        "parts")
      0)
    "text"
  if jsTruthy t then t else Js.str ""

/-- A response carrying only a flat text field. -/
def flatTextResponse (s : String) : Js :=
  Js.obj [("text", Js.str s)]

/-- A response carrying the nested `candidates[0].content.parts[0].text`
payload the extractor traverses. -/
def nestedResponse (s : String) : Js :=
  Js.obj [("candidates", Js.arr [Js.obj [("content", Js.obj [("parts",
    Js.arr [Js.obj [("text", Js.str s)]])])]])]

/- ### The resilient call wrapper (src/unnamed/part_000 lines 34-64) -/

/-- An error thrown by the remote call.  The JS reads
`error.response.data.error.details`, finds the RetryInfo entry and parses
its `retryDelay` string (for example `"30s"`) with `parseFloat`; we carry
the already-parsed value in whole seconds. -/
structure ApiError where
  message : String
  retryDelaySeconds : Option Nat
deriving DecidableEq

/-- Outcome of one invocation of `model.generateContent`. -/
inductive CallOutcome where
  | success (response : Js)
  | failure (error : ApiError)

/-- What the wrapper can throw: a re-thrown remote error, or the generic
error from the unreachable line after the loop. -/
inductive RetryError where
  | api (e : ApiError)
  | exhausted (message : String)
deriving DecidableEq

/-- Observable behaviour of one wrapper invocation: its result, how many
remote calls it made, and the sleeps it performed (in ms). -/
structure RetryResult where
  result : Except RetryError Js
  calls : Nat
  delays : List Nat

/-- The delay computed for a failed attempt (part_000 lines 46-53):
`initialDelay * 2 ** attempt`, raised to the server-suggested delay when
the error carries one. -/
def backoffDelay (initialDelay attempt : Nat) (e : ApiError) : Nat :=
  let delay := initialDelay * 2 ^ attempt
  match e.retryDelaySeconds with
  | some s => max delay (s * 1000)
  | none => delay

/-- The retry loop body of `callGenerativeAIWithRetry`.  `fuel` counts the
remaining iterations of `while (attempt < retries)`, so `fuel =
retries - attempt` throughout; `fuel = 0` is the fall-through to the final
`throw new Error(...)`. -/
def retryLoop (outcomes : Nat → CallOutcome) (retries initialDelay : Nat) :
    Nat → Nat → RetryResult
  | _, 0 =>
    { result := Except.error (RetryError.exhausted
        "Failed to get a response from the API after multiple retries.")
    , calls := 0
    , delays := [] }
  | attempt, fuel + 1 =>
    match outcomes attempt with
    | CallOutcome.success r => { result := Except.ok r, calls := 1, delays := [] }
    | CallOutcome.failure e =>
      if attempt < retries - 1 then
        let d := backoffDelay initialDelay attempt e
        let rest := retryLoop outcomes retries initialDelay (attempt + 1) fuel
        { result := rest.result, calls := rest.calls + 1, delays := d :: rest.delays }
      else
        { result := Except.error (RetryError.api e), calls := 1, delays := [] }

/-- `callGenerativeAIWithRetry(prompt, model, retries, initialDelay)` from
part_000: the remote service is abstracted as the `outcomes` oracle giving
the result of the `attempt`-th call. -/
def callGenerativeAIWithRetry (outcomes : Nat → CallOutcome)
    (retries initialDelay : Nat) : RetryResult :=
  retryLoop outcomes retries initialDelay 0 retries

/-- The backoff formula in the words of the spec (section 8): delay for
attempt `k` is `initialDelay * 2^k`, or `max` of that and the
server-suggested delay (in ms) when one exists. -/
def specBackoffDelay (initialDelay k : Nat) (serverDelayMs : Option Nat) : Nat :=
  match serverDelayMs with
  | none => initialDelay * 2 ^ k
  | some m => max (initialDelay * 2 ^ k) m

/- ### Configuration (part_000 lines 6-8 and 67-70) -/

/-- The three environment variables the script reads; `none` models an
unset variable. -/
structure Config where
  apiKey : Option String
  keywords : Option String
  chapterCountRaw : Option String

/-- JS truthiness of a string-or-undefined environment value: `undefined`
and the empty string are falsy. -/
def jsTruthyStr : Option String → Bool
  | none => false
  | some s => !(s == "")

/-- Accumulate the digit prefix of a character list (helper for the
`parseInt` model). -/
def parseDigitsAux : List Char → Nat → Nat
  | [], acc => acc
  | c :: rest, acc =>
    if c.isDigit then parseDigitsAux rest (acc * 10 + (c.toNat - 48)) else acc

/-- Parse a maximal nonempty digit prefix; `none` when the first character
is not a digit. -/
def parseDigitsStart : List Char → Option Nat
  | [] => none
  | c :: rest => if c.isDigit then some (parseDigitsAux rest (c.toNat - 48)) else none

/-- Model of `parseInt(value, 10)` on an environment value: skip leading
whitespace, allow one sign, then require at least one digit; `none` is
`NaN` (also the result on `undefined`). -/
def parseIntJS (s : Option String) : Option Int :=
  match s with
  | none => none
  | some str =>
    match str.data.dropWhile isJsSpace with
    | [] => none
    | c :: rest =>
      if c == '-' then (parseDigitsStart rest).map (fun n => -(n : Int))
      else if c == '+' then (parseDigitsStart rest).map (fun n => (n : Int))
      else (parseDigitsStart (c :: rest)).map (fun n => (n : Int))

/-- The pre-flight check of `writeBook` (part_000 line 67):
`!(!API_KEY || !KEYWORDS || isNaN(CHAPTER_COUNT))`. -/
def configValid (cfg : Config) : Bool :=
  jsTruthyStr cfg.apiKey && jsTruthyStr cfg.keywords
    && (parseIntJS cfg.chapterCountRaw).isSome

/- ### The narrative pipeline controller (part_000 lines 82-208) -/

/-- The texts fixed by the four setup stages and threaded into every
loop-iteration prompt. -/
structure BookContext where
  world : List Char
  locations : List Char
  characters : List Char
  chapterOutline : List Char
deriving DecidableEq

/-- The mutable state of the paragraph-writing loop (part_000 lines 83-90
and 133-134). -/
structure LoopState where
  bookContent : List Char
  summary : List Char
  previousParagraph : List Char
  currentChapter : Nat
  paragraphCount : Nat
  bookComplete : Bool
deriving DecidableEq

/-- The loop state on entry to stage 5 (part_000 lines 83-90, 133-134). -/
def initialLoopState : LoopState :=
  { bookContent := []
  , summary := ( "Empty page, begin writing your book!" ).data
  , previousParagraph := ( "No previous paragraphs." ).data
  , currentChapter := 1
  , paragraphCount := 0
  , bookComplete := false }

/-- The chapter-end sentinel. -/
def chapterEndMarker : List Char := ( "END OF THE CHAPTER" ).data

/-- The book-end sentinel. -/
def bookEndMarker : List Char := ( "END OF THE BOOK" ).data

/-- The marker clean-up of part_000 line 165:
`newParagraph.replace("END OF THE CHAPTER", "").replace("END OF THE BOOK", "").trim()`. -/
def stripMarkers (s : List Char) : List Char :=
  trimChars (replaceFirst bookEndMarker (replaceFirst chapterEndMarker s))

/-- A remote call issued by the controller, carrying the prompt it sends
and (for the loop stage) the value of `bookComplete` at the moment the
call is made. -/
inductive RemoteCall where
  | setupCall (prompt : List Char)
  | paragraphCall (prompt : List Char) (bookCompleteAtCall : Bool)
  | summaryCall (prompt : List Char) (bookCompleteAtCall : Bool)
deriving DecidableEq

/-- Whether a call was issued while `bookComplete` was already `true`. -/
def issuedWhenComplete : RemoteCall → Bool
  | RemoteCall.setupCall _ => false
  | RemoteCall.paragraphCall _ b => b
  | RemoteCall.summaryCall _ b => b

/-- The world-stage prompt (part_000 line 100). -/
def worldPrompt (keywords : List Char) (cc : Int) : List Char :=
  ( "Based on the keywords \"" ).data ++ keywords
    ++ ( "\", create a detailed world for a book with " ).data
    ++ (toString cc).data
    ++ ( " chapters. Focus on the core concepts, history, and unique elements of the world. Provide a concise, single-paragraph description." ).data

/-- The locations-stage prompt (part_000 line 107). -/
def locationsPrompt (world : List Char) : List Char :=
  ( "Using this world description: \"" ).data ++ world
    ++ ( "\", create locations for a book. Describe each location briefly in a single paragraph." ).data

/-- The characters-stage prompt (part_000 line 114). -/
def charactersPrompt (world locations : List Char) : List Char :=
  ( "Using this world description: \"" ).data ++ world
    ++ ( "\" and these locations: \"" ).data ++ locations
    ++ ( "\", create characters for the book. Briefly describe their personality, motivations, and role in the story." ).data

/-- The outline-stage prompt (part_000 lines 121-125). -/
def outlinePrompt (world locations characters : List Char) (cc : Int) : List Char :=
  ( "Using the following world, locations, and characters, create a detailed, chapter-by-chapter outline for a book with " ).data
    ++ (toString cc).data
    ++ ( " chapters. The outline should guide the story\x27s progression from beginning to end.\n      World: \"" ).data
    ++ world
    ++ ( "\"\n      Locations: \"" ).data ++ locations
    ++ ( "\"\n      Characters: \"" ).data ++ characters
    ++ ( "\"\n    " ).data

/-- The per-iteration paragraph prompt (part_000 lines 139-153). -/
def paragraphPrompt (cc : Int) (ctx : BookContext) (st : LoopState) : List Char :=
  ( "\n        You are an author writing a book. Your task is to write a single paragraph of a book, given the summary so far, world description, locations of the book, characters, and chapter outline.\n        This is a summary of the book so far: \"" ).data
    ++ st.summary
    ++ ( "\"\n        This is the previous paragraph of the chapter: \"" ).data
    ++ st.previousParagraph
    ++ ( "\"\n        Here is the world description: \"" ).data
    ++ ctx.world
    ++ ( "\"\n        Here are the key locations: \"" ).data
    ++ ctx.locations
    ++ ( "\"\n        Here are the characters: \"" ).data
    ++ ctx.characters
    ++ ( "\"\n        Here is the full chapter outline: \"" ).data
    ++ ctx.chapterOutline
    ++ ( "\"\n        \n        Write a single paragraph, a single aspect, a fragment of the chapter " ).data
    ++ (toString st.currentChapter).data
    ++ ( "/" ).data
    ++ (toString cc).data
    ++ ( " that one time will make up the whole chapter. Perhaps this is a single sentence from the outline guiding the whole paragraph, or a single word.\n        Paragraphs written so far: " ).data
    ++ (toString st.paragraphCount).data
    ++ ( "/max. 30 per chapter\n        \n        Important instructions:\n        - If this paragraph concludes a chapter, end your response with the exact phrase \"END OF THE CHAPTER\".\n        - If this paragraph concludes the entire book, end your response with the exact phrase \"END OF THE BOOK\"." ).data

/-- The per-iteration summarization prompt (part_000 line 189). -/
def summaryPrompt (bookContent : List Char) : List Char :=
  ( "Based on the following content, write a summary of the book so far: \"" ).data
    ++ bookContent ++ ( "\"" ).data

/-- One iteration of the writing loop (part_000 lines 139-198), given the
extracted texts of the paragraph call and the summary call.  Returns the
two remote calls the iteration issues (in order) and the updated state. -/
def stepIteration (cc : Int) (ctx : BookContext) (st : LoopState)
    (rawParagraph newSummary : List Char) : List RemoteCall × LoopState :=
  let e1 := RemoteCall.paragraphCall (paragraphPrompt cc ctx st) st.bookComplete
  let newParagraph := trimChars rawParagraph
  let isChapterEnd := containsSub chapterEndMarker newParagraph
  let isBookEnd := containsSub bookEndMarker newParagraph
  let cleaned := stripMarkers newParagraph
  let bookContent := st.bookContent ++ ( "\n\n" ).data ++ cleaned
  let paragraphCount := if isChapterEnd then 0 else st.paragraphCount
  let previousParagraph :=
    if isChapterEnd then ( "No previous paragraphs" ).data else cleaned
  let currentChapter :=
    if isChapterEnd then st.currentChapter + 1 else st.currentChapter
  let bookComplete := if isBookEnd then true else st.bookComplete
  let e2 := RemoteCall.summaryCall (summaryPrompt bookContent) bookComplete
  let summary := trimChars newSummary
  ([e1, e2],
   { bookContent := bookContent
   , summary := summary
   , previousParagraph := previousParagraph
   , currentChapter := currentChapter
   , paragraphCount := paragraphCount + 1
   , bookComplete := bookComplete })

/-- The `while (!bookComplete)` loop of part_000 lines 136-199, driven by
`gen`, which yields the extracted (paragraph, summary) texts of iteration
`i`.  `fuel` bounds how many iterations we unfold; the real loop has no
such bound, so every property proved below holds for all `fuel`. -/
def runLoop (cc : Int) (ctx : BookContext) :
    (Nat → List Char × List Char) → Nat → LoopState → List RemoteCall × LoopState
  | _, 0, st => ([], st)
  | gen, fuel + 1, st =>
    if st.bookComplete then ([], st)
    else
      let r := stepIteration cc ctx st (gen 0).1 (gen 0).2
      let rest := runLoop cc ctx (fun i => gen (i + 1)) fuel r.2
      (r.1 ++ rest.1, rest.2)

/-- The four setup stages followed by the writing loop (part_000 lines
97-199): each stage stores the extracted text (`setupTexts i` for stage
`i`) and the next stage embeds it in its prompt. -/
def runPipeline (keywords : List Char) (cc : Int)
    (setupTexts : Nat → List Char) (loopGen : Nat → List Char × List Char)
    (fuel : Nat) : List RemoteCall × LoopState :=
  let world := setupTexts 0
  let locations := setupTexts 1
  let characters := setupTexts 2
  let chapterOutline := setupTexts 3
  let ctx : BookContext :=
    { world := world, locations := locations, characters := characters
    , chapterOutline := chapterOutline }
  let setupCalls :=
    [ RemoteCall.setupCall (worldPrompt keywords cc)
    , RemoteCall.setupCall (locationsPrompt world)
    , RemoteCall.setupCall (charactersPrompt world locations)
    , RemoteCall.setupCall (outlinePrompt world locations characters cc) ]
  let r := runLoop cc ctx loopGen fuel initialLoopState
  (setupCalls ++ r.1, r.2)

/-- `writeBook` (part_000 lines 66-80): the pre-flight configuration check
followed by the pipeline; `none` models the early `return` that makes no
remote call. -/
def writeBook (cfg : Config) (setupTexts : Nat → List Char)
    (loopGen : Nat → List Char × List Char) (fuel : Nat) :
    Option (List RemoteCall × LoopState) :=
  if configValid cfg then
    some (runPipeline (cfg.keywords.getD "").data
      ((parseIntJS cfg.chapterCountRaw).getD 0) setupTexts loopGen fuel)
  else none

/-- Number of remote calls a `writeBook` run issues. -/
def remoteCallCount (r : Option (List RemoteCall × LoopState)) : Nat :=
  match r with
  | none => 0
  | some run => run.1.length

/- ### Concrete instances used in the examples below -/

/-- A remote service whose calls always succeed with a `null` body, from
which no text is extractable. -/
def emptyOutcomes : Nat → CallOutcome := fun _ => CallOutcome.success Js.null

/-- A sample remote error without a server-suggested delay. -/
def err0 : ApiError := { message := "Service Unavailable", retryDelaySeconds := none }

/-- A small book context. -/
def ctx0 : BookContext :=
  { world := ( "w" ).data, locations := ( "l" ).data
  , characters := ( "c" ).data, chapterOutline := ( "o" ).data }

/-- A loop oracle whose paragraphs never carry a marker. -/
def gen0 : Nat → List Char × List Char :=
  fun _ => (( "hello world" ).data, ( "sum" ).data)

/-- A generated paragraph carrying both sentinels. -/
def rawBothMarkers : List Char :=
  ( "The tale concludes. END OF THE CHAPTER END OF THE BOOK" ).data

/-- A generated paragraph ending the book. -/
def rawBookEnd : List Char :=
  ( "And so the journey ends. END OF THE BOOK" ).data

/-- A generated paragraph with a chapter-end marker in the middle. -/
def rawMidMarker : List Char :=
  ( "The duel ended. END OF THE CHAPTER The dust settled." ).data

/-- A generated paragraph with the chapter-end marker at the end. -/
def rawEndMarker : List Char :=
  ( "The duel ended. The dust settled. END OF THE CHAPTER" ).data

/-- Text holding two copies of the chapter-end marker. -/
def doubleChapterMarkerText : List Char :=
  ( "END OF THE CHAPTEREND OF THE CHAPTER" ).data

/-- A loop state whose book is already complete. -/
def completedState : LoopState := { initialLoopState with bookComplete := true }

/-- A configuration whose chapter count parses to the non-positive `0`. -/
def cfgZero : Config :=
  { apiKey := some "test-key", keywords := some "fantasy, dragons"
  , chapterCountRaw := some "0" }

/-- A configuration with the API key unset. -/
def cfgMissingKey : Config :=
  { apiKey := none, keywords := some "fantasy", chapterCountRaw := some "3" }

/-- A trivial setup-stage oracle. -/
def setupTexts0 : Nat → List Char := fun _ => ( "text" ).data

/-- A trivial loop oracle. -/
def loopGen0 : Nat → List Char × List Char :=
  fun _ => (( "p" ).data, ( "s" ).data)

/- ### Helper lemmas -/

/-- Removing a pattern that does not occur changes nothing. -/
theorem replaceFirst_eq_of_not_contains (pat : List Char) :
    ∀ s, containsSub pat s = false → replaceFirst pat s = s := by
  intro s
  induction s with
  | nil => intro _; rfl
  | cons c rest ih =>
    intro h
    rw [containsSub, Bool.or_eq_false_iff] at h
    rw [replaceFirst, if_neg (by simp [h.1]), ih h.2]

/-- Normal form of the state produced by one loop iteration. -/
theorem stepIteration_state (cc : Int) (ctx : BookContext) (st : LoopState)
    (raw sum : List Char) :
    (stepIteration cc ctx st raw sum).2 =
      { bookContent := st.bookContent ++ ( "\n\n" ).data ++ stripMarkers (trimChars raw)
      , summary := trimChars sum
      , previousParagraph :=
          if containsSub chapterEndMarker (trimChars raw)
          then ( "No previous paragraphs" ).data else stripMarkers (trimChars raw)
      , currentChapter :=
          if containsSub chapterEndMarker (trimChars raw)
          then st.currentChapter + 1 else st.currentChapter
      , paragraphCount :=
          (if containsSub chapterEndMarker (trimChars raw) then 0 else st.paragraphCount) + 1
      , bookComplete :=
          if containsSub bookEndMarker (trimChars raw) then true else st.bookComplete } := rfl

/-- The control fields of the state after one iteration, as functions of
marker containment in the trimmed paragraph. -/
theorem stepIteration_control (cc : Int) (ctx : BookContext) (st : LoopState)
    (raw sum : List Char) :
    ((stepIteration cc ctx st raw sum).2.currentChapter
        = if containsSub chapterEndMarker (trimChars raw) then st.currentChapter + 1
          else st.currentChapter)
    ∧ ((stepIteration cc ctx st raw sum).2.bookComplete
        = (containsSub bookEndMarker (trimChars raw) || st.bookComplete))
    ∧ ((stepIteration cc ctx st raw sum).2.paragraphCount
        = if containsSub chapterEndMarker (trimChars raw) then 1
          else st.paragraphCount + 1) := by
  rw [stepIteration_state]
  refine ⟨rfl, ?_, ?_⟩
  · cases containsSub bookEndMarker (trimChars raw) <;> simp
  · cases containsSub chapterEndMarker (trimChars raw) <;> simp

/-- The two calls of an iteration, reduced to the completion flag each was
issued under. -/
theorem stepIteration_events (cc : Int) (ctx : BookContext) (st : LoopState)
    (raw sum : List Char) :
    (stepIteration cc ctx st raw sum).1.map issuedWhenComplete
      = [st.bookComplete, containsSub bookEndMarker (trimChars raw) || st.bookComplete] := by
  show [st.bookComplete,
    if containsSub bookEndMarker (trimChars raw) then true else st.bookComplete] = _
  cases containsSub bookEndMarker (trimChars raw) <;> simp

/-- The chapter count only reaches prompt text, so the successor state is
independent of it. -/
theorem stepIteration_state_cc (cc cc' : Int) (ctx : BookContext) (st : LoopState)
    (raw sum : List Char) :
    (stepIteration cc ctx st raw sum).2 = (stepIteration cc' ctx st raw sum).2 := rfl

/-- Each iteration issues exactly two remote calls. -/
theorem stepIteration_events_length (cc : Int) (ctx : BookContext) (st : LoopState)
    (raw sum : List Char) : (stepIteration cc ctx st raw sum).1.length = 2 := rfl

/-- The completion flag after an iteration. -/
theorem stepIteration_bookComplete (cc : Int) (ctx : BookContext) (st : LoopState)
    (raw sum : List Char) :
    (stepIteration cc ctx st raw sum).2.bookComplete
      = (containsSub bookEndMarker (trimChars raw) || st.bookComplete) := by
  rw [show (stepIteration cc ctx st raw sum).2.bookComplete
      = if containsSub bookEndMarker (trimChars raw) then true else st.bookComplete from rfl]
  cases containsSub bookEndMarker (trimChars raw) <;> simp

/-- A completed state stops the loop before any call. -/
theorem runLoop_complete (cc : Int) (ctx : BookContext)
    (gen : Nat → List Char × List Char) (fuel : Nat) (st : LoopState)
    (h : st.bookComplete = true) : runLoop cc ctx gen fuel st = ([], st) := by
  cases fuel with
  | zero => rfl
  | succ f => simp [runLoop, h]

/-- The loop's final state and number of issued calls are independent of
the configured chapter count. -/
theorem runLoop_state_cc (cc cc' : Int) (ctx : BookContext) :
    ∀ (fuel : Nat) (gen : Nat → List Char × List Char) (st : LoopState),
      (runLoop cc ctx gen fuel st).2 = (runLoop cc' ctx gen fuel st).2
      ∧ (runLoop cc ctx gen fuel st).1.length = (runLoop cc' ctx gen fuel st).1.length := by
  intro fuel
  induction fuel with
  | zero => intro gen st; exact ⟨rfl, rfl⟩
  | succ f ih =>
    intro gen st
    by_cases h : st.bookComplete
    · simp [runLoop, h]
    · simp only [runLoop, h, if_false, Bool.false_eq_true]
      rw [stepIteration_state_cc cc cc' ctx st (gen 0).1 (gen 0).2]
      refine ⟨(ih _ _).1, ?_⟩
      simp only [List.length_append]
      rw [stepIteration_events_length, stepIteration_events_length, (ih _ _).2]

/-- Without a book-end marker the loop never completes and consumes all of
its fuel, two calls per iteration. -/
theorem runLoop_no_marker (cc : Int) (ctx : BookContext) :
    ∀ (fuel : Nat) (gen : Nat → List Char × List Char) (st : LoopState),
      st.bookComplete = false →
      (∀ i, containsSub bookEndMarker (trimChars (gen i).1) = false) →
      (runLoop cc ctx gen fuel st).2.bookComplete = false
      ∧ (runLoop cc ctx gen fuel st).1.length = 2 * fuel := by
  intro fuel
  induction fuel with
  | zero => intro gen st h _; exact ⟨h, rfl⟩
  | succ f ih =>
    intro gen st h hm
    simp only [runLoop, h, if_false, Bool.false_eq_true]
    have hst : (stepIteration cc ctx st (gen 0).1 (gen 0).2).2.bookComplete = false := by
      rw [stepIteration_bookComplete, hm 0, h]
      rfl
    have hrest := ih (fun i => gen (i + 1)) _ hst (fun i => hm (i + 1))
    refine ⟨hrest.1, ?_⟩
    simp only [List.length_append, stepIteration_events_length, hrest.2]
    omega

/-- When every attempt fails, the retry loop performs one call per fuel
unit, sleeps the computed backoff between calls, and re-throws the error
of the last attempt. -/
theorem retryLoop_all_failures (errs : Nat → ApiError) (retries initialDelay : Nat) :
    ∀ fuel attempt, 1 ≤ fuel → attempt + fuel = retries →
      retryLoop (fun i => CallOutcome.failure (errs i)) retries initialDelay attempt fuel =
        { result := Except.error (RetryError.api (errs (retries - 1)))
        , calls := fuel
        , delays := (List.range' attempt (fuel - 1)).map
            (fun k => backoffDelay initialDelay k (errs k)) } := by
  intro fuel
  induction fuel with
  | zero => intro attempt h1 _; omega
  | succ f ih =>
    intro attempt h1 h2
    by_cases hf : f = 0
    · subst hf
      have ha : attempt = retries - 1 := by omega
      simp only [retryLoop]
      rw [if_neg (by omega)]
      simp [ha, List.range']
    · have hc : attempt < retries - 1 := by omega
      simp only [retryLoop]
      rw [if_pos hc, ih (attempt + 1) (by omega) (by omega)]
      have hr : f - 1 + 1 = f := by omega
      simp only [Nat.succ_sub_one]
      rw [← hr, List.range'_succ]
      simp [hr]

/-- The code's backoff computation agrees with the spec's formula. -/
theorem backoffDelay_eq_spec (initialDelay k : Nat) (e : ApiError) :
    backoffDelay initialDelay k e
      = specBackoffDelay initialDelay k (e.retryDelaySeconds.map (fun s => s * 1000)) := by
  obtain ⟨m, rd⟩ := e
  cases rd <;> rfl

/- ### Claim C1 -/

/-- C1 (counterexample): a remote call that succeeds with a `null` body,
from which no text is extractable, is returned by the wrapper as a success
after a single call, and the controller then extracts the empty string —
the wrapper does not classify it as retryable. -/
theorem wrapper_accepts_unextractable_response :
    callGenerativeAIWithRetry emptyOutcomes 10 1000
      = { result := Except.ok Js.null, calls := 1, delays := [] }
    ∧ extractTextFromResponse Js.null = Js.str "" := ⟨rfl, rfl⟩

/-- C1 (amended): the wrapper's only success condition is that the remote
call does not throw; any first-attempt non-throwing response is returned
unchanged after exactly one call, with no extraction or emptiness check. -/
theorem wrapper_returns_first_success_unchecked (outcomes : Nat → CallOutcome)
    (resp : Js) (retries initialDelay : Nat)
    (hr : 1 ≤ retries) (h0 : outcomes 0 = CallOutcome.success resp) :
    callGenerativeAIWithRetry outcomes retries initialDelay
      = { result := Except.ok resp, calls := 1, delays := [] } := by
  obtain ⟨r, rfl⟩ : ∃ r, retries = r + 1 := ⟨retries - 1, by omega⟩
  simp [callGenerativeAIWithRetry, retryLoop, h0]

/-- C1 (witness): the amended statement at a concrete unextractable
response. -/
theorem wrapper_returns_first_success_unchecked_witness :
    callGenerativeAIWithRetry emptyOutcomes 5 1000
      = { result := Except.ok Js.null, calls := 1, delays := [] } :=
  wrapper_returns_first_success_unchecked emptyOutcomes Js.null 5 1000 (by decide) rfl

/- ### Claim C2 -/

/-- C2 (counterexample): a paragraph carrying both markers increments
`currentChapter` (to 2 from the initial state) while also completing the
book, and the paragraph counter leaves the iteration at 1, not 0 — the
transitions are not exclusive. -/
theorem step_both_markers_increments_chapter :
    (stepIteration 3 ctx0 initialLoopState rawBothMarkers ( "sum" ).data).2.currentChapter = 2
    ∧ (stepIteration 3 ctx0 initialLoopState rawBothMarkers ( "sum" ).data).2.bookComplete = true
    ∧ (stepIteration 3 ctx0 initialLoopState rawBothMarkers ( "sum" ).data).2.paragraphCount = 1 := by
  decide

/-- C2 (amended): the two marker checks are independent, not exclusive: a
chapter-end marker increments `currentChapter` and resets the paragraph
counter, a book-end marker sets `bookComplete`, and a paragraph carrying
both does both; the paragraph counter is additionally incremented at the
end of every iteration, so it enters the next iteration at 1 after a
chapter end and at its successor otherwise. -/
theorem step_marker_transitions (cc : Int) (ctx : BookContext) (st : LoopState)
    (raw sum : List Char) :
    ((stepIteration cc ctx st raw sum).2.currentChapter
        = if containsSub chapterEndMarker (trimChars raw) then st.currentChapter + 1
          else st.currentChapter)
    ∧ ((stepIteration cc ctx st raw sum).2.bookComplete
        = (containsSub bookEndMarker (trimChars raw) || st.bookComplete))
    ∧ ((stepIteration cc ctx st raw sum).2.paragraphCount
        = if containsSub chapterEndMarker (trimChars raw) then 1
          else st.paragraphCount + 1) :=
  stepIteration_control cc ctx st raw sum

/- ### Claim C3 -/

/-- C3 (counterexample): in the iteration whose paragraph carries the
book-end marker, the summarization call is still made after the terminal
transition — the second call of the iteration is issued while
`bookComplete` is already `true`. -/
theorem summary_call_after_terminal_transition :
    (stepIteration 3 ctx0 initialLoopState rawBookEnd ( "sum" ).data).1.map issuedWhenComplete
      = [false, true]
    ∧ (stepIteration 3 ctx0 initialLoopState rawBookEnd ( "sum" ).data).2.bookComplete = true := by
  decide

/-- C3 (amended): once `bookComplete` is `true` at the top of the loop, no
further iterations run and no remote calls of any kind are issued; however
the iteration that sees the book-end marker still performs its
summarization call after setting `bookComplete`, so exactly one generation
call follows the terminal transition. -/
theorem loop_issues_no_calls_once_complete (cc : Int) (ctx : BookContext)
    (gen : Nat → List Char × List Char) (fuel : Nat) (st : LoopState) :
    (st.bookComplete = true → runLoop cc ctx gen fuel st = ([], st))
    ∧ (∀ raw sum, containsSub bookEndMarker (trimChars raw) = true →
        (stepIteration cc ctx st raw sum).1.map issuedWhenComplete = [st.bookComplete, true]
        ∧ (stepIteration cc ctx st raw sum).2.bookComplete = true) := by
  refine ⟨runLoop_complete cc ctx gen fuel st, fun raw sum h => ⟨?_, ?_⟩⟩
  · rw [stepIteration_events, h]
    rfl
  · rw [stepIteration_bookComplete, h]
    rfl

/-- C3 (witness): the amended statement at concrete inputs. -/
theorem loop_issues_no_calls_once_complete_witness :
    runLoop 3 ctx0 gen0 5 completedState = ([], completedState)
    ∧ (stepIteration 3 ctx0 completedState rawBookEnd ( "sum" ).data).1.map issuedWhenComplete
        = [true, true] :=
  ⟨(loop_issues_no_calls_once_complete 3 ctx0 gen0 5 completedState).1 rfl,
   ((loop_issues_no_calls_once_complete 3 ctx0 gen0 5 completedState).2
      rawBookEnd ( "sum" ).data (by decide)).1⟩

/- ### Claim C4 -/

/-- C4: when the first `retries` attempts all fail (every failure is
retryable in this wrapper variant), the wrapper makes exactly `retries`
remote calls and then fails by propagating the error of the last attempt
to the caller; no call beyond the `retries`-th is made. -/
theorem retry_exhaustion_calls_and_error (errs : Nat → ApiError)
    (retries initialDelay : Nat) (h : 1 ≤ retries) :
    (callGenerativeAIWithRetry (fun i => CallOutcome.failure (errs i)) retries initialDelay).result
      = Except.error (RetryError.api (errs (retries - 1)))
    ∧ (callGenerativeAIWithRetry (fun i => CallOutcome.failure (errs i)) retries initialDelay).calls
      = retries := by
  rw [callGenerativeAIWithRetry,
    retryLoop_all_failures errs retries initialDelay retries 0 h (by omega)]
  exact ⟨rfl, rfl⟩

/-- C4 (witness): three attempts, all failing, make exactly three calls
and surface the last error. -/
theorem retry_exhaustion_calls_and_error_witness :
    (callGenerativeAIWithRetry (fun _ => CallOutcome.failure err0) 3 1000).result
      = Except.error (RetryError.api err0)
    ∧ (callGenerativeAIWithRetry (fun _ => CallOutcome.failure err0) 3 1000).calls = 3 :=
  retry_exhaustion_calls_and_error (fun _ => err0) 3 1000 (by decide)

/- ### Claim C5 -/

/-- C5: under consecutive retryable failures the sleep before retry `k`
(0-indexed) is exactly the spec's formula: `initialDelay * 2^k` without a
server-suggested delay, and the maximum of that and the server-suggested
delay otherwise; the server signal never shortens the computed backoff. -/
theorem retry_backoff_matches_spec (errs : Nat → ApiError) (retries initialDelay : Nat) :
    (callGenerativeAIWithRetry (fun i => CallOutcome.failure (errs i)) retries initialDelay).delays
      = (List.range (retries - 1)).map
          (fun k => specBackoffDelay initialDelay k
            ((errs k).retryDelaySeconds.map (fun s => s * 1000)))
    ∧ ∀ k m, initialDelay * 2 ^ k ≤ specBackoffDelay initialDelay k m := by
  constructor
  · cases retries with
    | zero => rfl
    | succ r =>
      rw [callGenerativeAIWithRetry,
        retryLoop_all_failures errs (r + 1) initialDelay (r + 1) 0 (by omega) (by omega)]
      simp only [Nat.succ_sub_one, List.range_eq_range']
      exact List.map_congr_left (fun k _ => backoffDelay_eq_spec initialDelay k (errs k))
  · intro k m
    cases m with
    | none => exact Nat.le_refl _
    | some v => exact Nat.le_max_left _ _

/- ### Claim C6 -/

/-- C6 (counterexample): `replace` removes only the first occurrence, so a
paragraph holding the chapter-end marker twice is cleaned to a text that
still contains the marker, and stripping it again changes it — stripping
is neither marker-erasing nor idempotent in general. -/
theorem strip_retains_marker_on_repeated_occurrence :
    containsSub chapterEndMarker (stripMarkers doubleChapterMarkerText) = true
    ∧ stripMarkers (stripMarkers doubleChapterMarkerText) ≠ stripMarkers doubleChapterMarkerText := by
  decide

/-- C6 (amended): stripping removes only the first occurrence of each
marker, chapter marker first and then book marker, and trims the result;
hence a cleaned paragraph can retain a marker when the input holds
repeated occurrences, and stripping is idempotent only on inputs free of
both markers, where it coincides with trimming (and is the identity on
already-trimmed such inputs). -/
theorem strip_on_marker_free_input (s : List Char)
    (h1 : containsSub chapterEndMarker s = false)
    (h2 : containsSub bookEndMarker s = false) :
    stripMarkers s = trimChars s ∧ (trimChars s = s → stripMarkers s = s) := by
  have he : stripMarkers s = trimChars s := by
    rw [stripMarkers, replaceFirst_eq_of_not_contains _ _ h1,
      replaceFirst_eq_of_not_contains _ _ h2]
  exact ⟨he, fun ht => by rw [he, ht]⟩

/-- C6 (witness): the amended statement at a concrete marker-free
paragraph. -/
theorem strip_on_marker_free_input_witness :
    stripMarkers ( "A quiet morning in the village." ).data
      = ( "A quiet morning in the village." ).data :=
  (strip_on_marker_free_input ( "A quiet morning in the village." ).data
    (by decide) (by decide)).2 (by decide)

/- ### Claim C7 -/

/-- C7 (counterexample): the extractor does not tolerate the flat `.text`
shape: it returns the empty string for it instead of the payload. -/
theorem extractor_ignores_flat_text_field :
    extractTextFromResponse (flatTextResponse "hello") = Js.str ""
    ∧ Js.str "" ≠ Js.str "hello" := by
  refine ⟨rfl, fun h => ?_⟩
  rw [Js.str.injEq] at h
  exact absurd h (by decide)

/-- C7 (amended): the extractor is total via optional chaining and returns
the nested `candidates[0].content.parts[0].text` payload when it is a
non-empty string; every other shape — including the flat `.text` field,
`null`, `undefined` and an empty candidate list — degrades to the empty
string rather than raising. -/
theorem extractor_shape_behaviour (s : String) (h : s ≠ "") :
    extractTextFromResponse (nestedResponse s) = Js.str s
    ∧ extractTextFromResponse (flatTextResponse s) = Js.str ""
    ∧ extractTextFromResponse Js.null = Js.str ""
    ∧ extractTextFromResponse Js.undef = Js.str ""
    ∧ extractTextFromResponse (Js.obj [("candidates", Js.arr [])]) = Js.str "" := by
  have hb : (s == "") = false := by
    cases hsb : s == "" with
    | false => rfl
    | true => exact absurd (by simpa using hsb) h
  refine ⟨?_, rfl, rfl, rfl, rfl⟩
  simp [extractTextFromResponse, nestedResponse, getPropOpt, getIndexOpt, jsTruthy, hb]

/-- C7 (witness): the amended statement at a concrete payload. -/
theorem extractor_shape_behaviour_witness :
    extractTextFromResponse (nestedResponse "hello") = Js.str "hello" :=
  (extractor_shape_behaviour "hello" (by decide)).1

/- ### Claim C8 -/

/-- C8 (counterexample): a chapter count of `"0"` parses to the
non-positive integer 0, yet the pre-flight check passes and the pipeline
proceeds to issue its four setup calls — the code checks only for `NaN`,
not positivity. -/
theorem pipeline_proceeds_on_zero_chapter_count :
    parseIntJS cfgZero.chapterCountRaw = some 0
    ∧ remoteCallCount (writeBook cfgZero setupTexts0 loopGen0 0) = 4 := by
  decide

/-- C8 (amended): the pipeline aborts before any remote call exactly when
the API key is missing or empty, the keywords are missing or empty, or the
chapter count fails to parse as an integer; a chapter count parsing to
zero or a negative integer passes the check. -/
theorem pipeline_aborts_on_invalid_config (cfg : Config)
    (setupTexts : Nat → List Char) (loopGen : Nat → List Char × List Char)
    (fuel : Nat) (h : configValid cfg = false) :
    writeBook cfg setupTexts loopGen fuel = none
    ∧ remoteCallCount (writeBook cfg setupTexts loopGen fuel) = 0 := by
  rw [writeBook, if_neg (by simp [h])]
  exact ⟨rfl, rfl⟩

/-- C8 (witness): the amended statement when the API key is unset. -/
theorem pipeline_aborts_on_invalid_config_witness :
    writeBook cfgMissingKey setupTexts0 loopGen0 2 = none
    ∧ remoteCallCount (writeBook cfgMissingKey setupTexts0 loopGen0 2) = 0 :=
  pipeline_aborts_on_invalid_config cfgMissingKey setupTexts0 loopGen0 2 (by decide)

/- ### Claim C9 -/

/-- C9: the loop terminates exactly on the book-end marker and in no other
way: as long as no generated paragraph contains the marker the loop never
completes and issues two calls in every available iteration (no iteration
ceiling), a marker paragraph completes the book, and the configured
chapter count influences nothing but prompt text — the final state and the
number of issued calls are identical for any two chapter counts. -/
theorem loop_unbounded_and_chapter_count_independent (cc cc' : Int)
    (ctx : BookContext) (gen : Nat → List Char × List Char) (fuel : Nat)
    (st : LoopState) :
    ((runLoop cc ctx gen fuel st).2 = (runLoop cc' ctx gen fuel st).2
      ∧ (runLoop cc ctx gen fuel st).1.length = (runLoop cc' ctx gen fuel st).1.length)
    ∧ (st.bookComplete = false →
        (∀ i, containsSub bookEndMarker (trimChars (gen i).1) = false) →
        (runLoop cc ctx gen fuel st).2.bookComplete = false
        ∧ (runLoop cc ctx gen fuel st).1.length = 2 * fuel)
    ∧ (∀ raw sum, containsSub bookEndMarker (trimChars raw) = true →
        (stepIteration cc ctx st raw sum).2.bookComplete = true) := by
  refine ⟨runLoop_state_cc cc cc' ctx fuel gen st,
    runLoop_no_marker cc ctx fuel gen st, fun raw sum h => ?_⟩
  rw [stepIteration_bookComplete, h]
  rfl

/-- C9 (witness): the statement at concrete inputs — two fuel units of a
marker-free oracle leave the book incomplete after four calls, the result
agrees for chapter counts 3 and 7, and a marker paragraph completes the
book. -/
theorem loop_unbounded_and_chapter_count_independent_witness :
    (runLoop 3 ctx0 gen0 2 initialLoopState).2 = (runLoop 7 ctx0 gen0 2 initialLoopState).2
    ∧ (runLoop 3 ctx0 gen0 2 initialLoopState).2.bookComplete = false
    ∧ (runLoop 3 ctx0 gen0 2 initialLoopState).1.length = 4
    ∧ (stepIteration 3 ctx0 initialLoopState rawBookEnd ( "sum" ).data).2.bookComplete = true :=
  ⟨(loop_unbounded_and_chapter_count_independent 3 7 ctx0 gen0 2 initialLoopState).1.1,
   ((loop_unbounded_and_chapter_count_independent 3 7 ctx0 gen0 2 initialLoopState).2.1
      rfl (fun _ => by simp only [gen0]; decide)).1,
   ((loop_unbounded_and_chapter_count_independent 3 7 ctx0 gen0 2 initialLoopState).2.1
      rfl (fun _ => by simp only [gen0]; decide)).2,
   (loop_unbounded_and_chapter_count_independent 3 7 ctx0 gen0 2 initialLoopState).2.2
      rawBookEnd ( "sum" ).data (by decide)⟩

/- ### Claim C10 -/

/-- C10: marker detection is substring containment anywhere in the trimmed
paragraph: the control transition (chapter counter, completion flag,
paragraph counter) of an iteration depends on the generated text only
through whether each marker occurs in it, so a marker in the middle of a
paragraph acts exactly like one at its end. -/
theorem step_depends_only_on_marker_containment (cc : Int) (ctx : BookContext)
    (st : LoopState) (r1 r2 s1 s2 : List Char)
    (hc : containsSub chapterEndMarker (trimChars r1)
        = containsSub chapterEndMarker (trimChars r2))
    (hb : containsSub bookEndMarker (trimChars r1)
        = containsSub bookEndMarker (trimChars r2)) :
    (stepIteration cc ctx st r1 s1).2.currentChapter
        = (stepIteration cc ctx st r2 s2).2.currentChapter
    ∧ (stepIteration cc ctx st r1 s1).2.bookComplete
        = (stepIteration cc ctx st r2 s2).2.bookComplete
    ∧ (stepIteration cc ctx st r1 s1).2.paragraphCount
        = (stepIteration cc ctx st r2 s2).2.paragraphCount := by
  obtain ⟨a1, b1, c1⟩ := stepIteration_control cc ctx st r1 s1
  obtain ⟨a2, b2, c2⟩ := stepIteration_control cc ctx st r2 s2
  refine ⟨?_, ?_, ?_⟩
  · rw [a1, a2, hc]
  · rw [b1, b2, hb]
  · rw [c1, c2, hc]

/-- C10 (witness): a chapter-end marker in the middle of a paragraph
drives the same transition as the marker at the end. -/
theorem step_depends_only_on_marker_containment_witness :
    (stepIteration 3 ctx0 initialLoopState rawMidMarker ( "s1" ).data).2.currentChapter
        = (stepIteration 3 ctx0 initialLoopState rawEndMarker ( "s2" ).data).2.currentChapter
    ∧ (stepIteration 3 ctx0 initialLoopState rawMidMarker ( "s1" ).data).2.bookComplete
        = (stepIteration 3 ctx0 initialLoopState rawEndMarker ( "s2" ).data).2.bookComplete
    ∧ (stepIteration 3 ctx0 initialLoopState rawMidMarker ( "s1" ).data).2.paragraphCount
        = (stepIteration 3 ctx0 initialLoopState rawEndMarker ( "s2" ).data).2.paragraphCount :=
  step_depends_only_on_marker_containment 3 ctx0 initialLoopState
    rawMidMarker rawEndMarker ( "s1" ).data ( "s2" ).data (by decide) (by decide)

